import Mathlib

/-!
Verification development for the INDI example/template drivers
(dome, dust cap, filter wheel, focuser, GPS, light box, custom driver).

Each driver is shallowly embedded: its entry points become pure Lean
functions over an explicit driver-state record, with framework oracles
(the inherited handler's result, serial write/read return codes, the
simulation flag, the connected flag) passed as parameters, and observable
side effects (client notifications, logging, config saves, serial I/O
attempts) collected in explicit result fields.
-/

/-- The INDI property completion states IPS_IDLE, IPS_OK, IPS_BUSY, IPS_ALERT. -/
inductive IPState where
  | Idle
  | Ok
  | Busy
  | Alert
deriving DecidableEq, Repr

/-- The INDI switch member states ISS_ON / ISS_OFF. -/
inductive ISState where
  | On
  | Off
deriving DecidableEq, Repr

/-- Observable effects a driver entry point performs through the framework. -/
inductive Event where
  | logInfo (msg : String)
  | logError (msg : String)
  | idSetSwitch (propName : String)
  | idSetNumber (propName : String)
  | idSetText (propName : String)
  | saveConfig (propName : String)
  | updateMinMax (propName : String)
deriving DecidableEq, Repr

/-- A switch member value (ISwitch): a name, a label and an on/off state. -/
structure SwitchValue where
  name : String
  label : String
  s : ISState
deriving DecidableEq, Repr

/-- A switch property (ISwitchVectorProperty): name, state and members. -/
structure SwitchVectorProperty where
  name : String
  s : IPState
  sw : List SwitchValue
deriving DecidableEq, Repr

/-- A text member value (IText). -/
structure TextValue where
  name : String
  text : String
deriving DecidableEq, Repr

/-- A text property (ITextVectorProperty). -/
structure TextVectorProperty where
  name : String
  s : IPState
  tp : List TextValue
deriving DecidableEq, Repr

/-- A number member value (INumber); the double value is modelled as a rational. -/
structure NumberValue where
  name : String
  value : Rat
deriving DecidableEq, Repr

/-- A number property (INumberVectorProperty). -/
structure NumberVectorProperty where
  name : String
  s : IPState
  np : List NumberValue
deriving DecidableEq, Repr

/-- C's `int(double)` cast: truncation toward zero.  For a rational in
lowest terms this is T-division of numerator by denominator, which is
exactly Lean's `Int` division. -/
def cIntOfRat (x : Rat) : Int :=
  x.num / (x.den : Int)

/-- The null-safe device-name check used at the top of every ISNew* handler:
`dev != nullptr && strcmp(dev, getDeviceName()) == 0`. -/
def devMatches (deviceName : String) (dev : Option String) : Bool :=
  match dev with
  | some d => d = deviceName
  | none => false

/-- Modelled from the spec: the framework helper IUUpdateSwitch is not in
this repository; per the command-dispatch contract it applies the batch of
member updates to the property, matching each update to a member by name. -/
def IUUpdateSwitch (p : SwitchVectorProperty) (updates : List (String × ISState)) :
    SwitchVectorProperty :=
  { p with sw := p.sw.map fun v =>
      match updates.find? (fun u => u.1 = v.name) with
      | some u => { v with s := u.2 }
      | none => v }

/-- Modelled from the spec: the framework helper IUFindOnSwitchIndex is not
in this repository; it returns the index of the first member that is on,
or -1 when none is. -/
def IUFindOnSwitchIndex (p : SwitchVectorProperty) : Int :=
  match p.sw.findIdx? (fun v => v.s = ISState.On) with
  | some i => (i : Int)
  | none => -1

/-- Modelled from the spec: the framework helper IUResetSwitch is not in
this repository; it turns every member of the property off. -/
def IUResetSwitch (p : SwitchVectorProperty) : SwitchVectorProperty :=
  { p with sw := p.sw.map fun v => { v with s := ISState.Off } }

/-- Modelled from the spec: the framework helper IUUpdateText is not in
this repository; per the command-dispatch contract it applies the batch of
member updates to the property, matching each update to a member by name. -/
def IUUpdateText (p : TextVectorProperty) (updates : List (String × String)) :
    TextVectorProperty :=
  { p with tp := p.tp.map fun v =>
      match updates.find? (fun u => u.1 = v.name) with
      | some u => { v with text := u.2 }
      | none => v }

/-- A property-registry action performed by updateProperties. -/
inductive PropAction where
  | defineProp (name : String)
  | deleteProp (name : String)
deriving DecidableEq, Repr

/-- The names a list of registry actions defines. -/
def definedNames (acts : List PropAction) : List String :=
  acts.filterMap fun a =>
    match a with
    | PropAction.defineProp n => some n
    | PropAction.deleteProp _ => none

/-- The names a list of registry actions deletes. -/
def deletedNames (acts : List PropAction) : List String :=
  acts.filterMap fun a =>
    match a with
    | PropAction.defineProp _ => none
    | PropAction.deleteProp n => some n

namespace MyCustomDriver

/-- The locally owned mutable property state of MyCustomDriver. -/
structure State where
  sayHelloSP : SwitchVectorProperty
  whatToSayTP : TextVectorProperty
  sayCountNP : NumberVectorProperty
deriving DecidableEq, Repr

/-- getDefaultName of MyCustomDriver. -/
def defaultName : String := "My Custom Driver"

/-- The local property state produced by MyCustomDriver::initProperties:
SAY_HELLO (two members, all off, idle), WHAT_TO_SAY (one text member,
idle) and SAY_COUNT (one number member at 0, idle). -/
def initialState : State :=
  { sayHelloSP :=
      { name := "SAY_HELLO"
        s := IPState.Idle
        sw := [ { name := "SAY_HELLO_DEFAULT", label := "Say Hello", s := ISState.Off }
              , { name := "SAY_HELLO_CUSTOM", label := "Say Custom", s := ISState.Off } ] }
    whatToSayTP :=
      { name := "WHAT_TO_SAY"
        s := IPState.Idle
        tp := [ { name := "WHAT_TO_SAY", text := "Hello, world!" } ] }
    sayCountNP :=
      { name := "SAY_COUNT"
        s := IPState.Idle
        np := [ { name := "SAY_COUNT", value := 0 } ] } }

/-- MyCustomDriver::updateProperties: when connected it defines
SAY_HELLO, WHAT_TO_SAY and SAY_COUNT; when disconnected it deletes the
same three property names. -/
def updateProperties (st : State) (connected : Bool) : List PropAction :=
  if connected then
    [ PropAction.defineProp st.sayHelloSP.name
    , PropAction.defineProp st.whatToSayTP.name
    , PropAction.defineProp st.sayCountNP.name ]
  else
    [ PropAction.deleteProp st.sayHelloSP.name
    , PropAction.deleteProp st.whatToSayTP.name
    , PropAction.deleteProp st.sayCountNP.name ]

/-- The SAY_COUNT increment in MyCustomDriver::ISNewSwitch:
`SayCountN[0].value = int(SayCountN[0].value) + 1`. -/
def incrementSayCount (p : NumberVectorProperty) : NumberVectorProperty :=
  { p with np :=
      match p.np with
      | v :: rest => { v with value := ((cIntOfRat v.value + 1 : Int) : Rat) } :: rest
      | [] => [] }

/-- MyCustomDriver::ISNewSwitch.  The inherited DefaultDevice handler is
called first; its boolean result is the oracle `inherited` (its effects
are on framework-owned properties, outside this state).  Returns the new
local state, the emitted events, and the handled flag. -/
def ISNewSwitch (deviceName : String) (inherited : Bool) (st : State)
    (dev : Option String) (name : String) (updates : List (String × ISState)) :
    State × List Event × Bool :=
  if inherited then
    (st, [], true)
  else if devMatches deviceName dev then
    if name = st.sayHelloSP.name then
      let sp := IUUpdateSwitch st.sayHelloSP updates
      let index := IUFindOnSwitchIndex sp
      let logEvents : List Event :=
        if index = 0 then [Event.logInfo "Hello, world!"]
        else if index = 1 then
          [Event.logInfo (match st.whatToSayTP.tp.head? with
                          | some t => t.text
                          | none => "")]
        else []
      let countNP := incrementSayCount st.sayCountNP
      let sp2 := IUResetSwitch sp
      let sp3 := { sp2 with s := IPState.Idle }
      ( { st with sayHelloSP := sp3, sayCountNP := countNP }
      , logEvents ++ [Event.idSetNumber st.sayCountNP.name, Event.idSetSwitch sp3.name]
      , true )
    else
      (st, [], false)
  else
    (st, [], false)

/-- MyCustomDriver::ISNewText.  Here the inherited handler is called last;
its boolean result is the oracle `inherited`. -/
def ISNewText (deviceName : String) (inherited : Bool) (st : State)
    (dev : Option String) (name : String) (updates : List (String × String)) :
    State × List Event × Bool :=
  if devMatches deviceName dev then
    if name = st.whatToSayTP.name then
      let tp1 := { st.whatToSayTP with s := IPState.Idle }
      let tp2 := IUUpdateText tp1 updates
      ( { st with whatToSayTP := tp2 }
      , [Event.idSetText tp2.name, Event.saveConfig tp2.name]
      , true )
    else
      (st, [], inherited)
  else
    (st, [], inherited)

/-- MyCustomDriver::Handshake: in simulation it logs and returns true
without touching the port; otherwise it stores the serial port file
descriptor and returns true.  Result fields: PortFD after the call, the
serial I/O operations performed, the events, and the boolean result. -/
def Handshake (sim : Bool) (portFD serialFD : Int) :
    Int × List String × List Event × Bool :=
  if sim then
    (portFD, [], [Event.logInfo "Connected successfuly to simulated device."], true)
  else
    (serialFD, [], [], true)

/-- MyCustomDriver::sendCommand, with the serial return codes as oracles
(0 is TTY_OK).  Result fields: flush count, write attempts, read
attempts, boolean result. -/
def sendCommand (sim : Bool) (writeRC readRC : Int) : Nat × Nat × Nat × Bool :=
  if sim then
    (0, 0, 0, true)
  else if writeRC ≠ 0 then
    (1, 1, 0, false)
  else if readRC ≠ 0 then
    (1, 1, 1, false)
  else
    (1, 1, 1, true)

/-- MyCustomDriver::TimerHit: returns the events performed and whether
SetTimer was called. -/
def TimerHit (connected : Bool) : List Event × Bool :=
  if !connected then
    ([], false)
  else
    ([Event.logInfo "timer hit"], true)

end MyCustomDriver

namespace DummyDome

/-- getDefaultName of DummyDome. -/
def defaultName : String := "Dummy Dome"

/-- DummyDome::updateProperties: both branches are empty (only TODO
comments); no custom property is defined or deleted. -/
def updateProperties (connected : Bool) : List PropAction :=
  if connected then [] else []

/-- DummyDome::ISNewNumber: the device-name guard encloses an empty block;
the request falls through to the inherited Dome handler. -/
def ISNewNumber (deviceName : String) (inherited : Bool)
    (dev : Option String) (name : String) : Bool :=
  if devMatches deviceName dev then
    inherited
  else
    inherited

/-- DummyDome::ISNewSwitch: the device-name guard encloses an empty block;
the request falls through to the inherited Dome handler. -/
def ISNewSwitch (deviceName : String) (inherited : Bool)
    (dev : Option String) (name : String) : Bool :=
  if devMatches deviceName dev then
    inherited
  else
    inherited

/-- DummyDome::ISNewText: the device-name guard encloses an empty block;
the request falls through to the inherited Dome handler. -/
def ISNewText (deviceName : String) (inherited : Bool)
    (dev : Option String) (name : String) : Bool :=
  if devMatches deviceName dev then
    inherited
  else
    inherited

/-- DummyDome::Handshake: logs in simulation; PortFD is managed by the
base class, so the result is just serial ops, events and the boolean. -/
def Handshake (sim : Bool) : List String × List Event × Bool :=
  if sim then
    ([], [Event.logInfo "Connected successfuly to simulated device."], true)
  else
    ([], [], true)

/-- DummyDome::TimerHit: events performed and whether SetTimer was called. -/
def TimerHit (connected : Bool) : List Event × Bool :=
  if !connected then
    ([], false)
  else
    ([Event.logInfo "timer hit"], true)

/-- DummyDome::Move: unimplemented stub, returns IPS_ALERT. -/
def Move (dir operation : Int) : IPState := IPState.Alert

/-- DummyDome::MoveAbs: unimplemented stub, returns IPS_ALERT. -/
def MoveAbs (az : Rat) : IPState := IPState.Alert

/-- DummyDome::MoveRel: unimplemented stub, returns IPS_ALERT. -/
def MoveRel (azDiff : Rat) : IPState := IPState.Alert

/-- DummyDome::Park: unimplemented stub, returns IPS_ALERT. -/
def Park : IPState := IPState.Alert

/-- DummyDome::UnPark: unimplemented stub, returns IPS_ALERT. -/
def UnPark : IPState := IPState.Alert

/-- DummyDome::ControlShutter: unimplemented stub, returns IPS_ALERT. -/
def ControlShutter (operation : Int) : IPState := IPState.Alert

end DummyDome

namespace DummyFocuser

/-- getDefaultName of DummyFocuser. -/
def defaultName : String := "Dummy Focuser"

/-- DummyFocuser::updateProperties: both branches are empty. -/
def updateProperties (connected : Bool) : List PropAction :=
  if connected then [] else []

/-- DummyFocuser::Handshake: logs in simulation and returns true; PortFD
is managed by the base class. -/
def Handshake (sim : Bool) : List String × List Event × Bool :=
  if sim then
    ([], [Event.logInfo "Connected successfuly to simulated device."], true)
  else
    ([], [], true)

/-- DummyFocuser::TimerHit: events performed and whether SetTimer was called. -/
def TimerHit (connected : Bool) : List Event × Bool :=
  if !connected then
    ([], false)
  else
    ([Event.logInfo "timer hit"], true)

/-- DummyFocuser::MoveFocuser: stub, logs and returns IPS_OK. -/
def MoveFocuser (dir speed : Int) (duration : Nat) : IPState := IPState.Ok

/-- DummyFocuser::MoveAbsFocuser: stub, logs and returns IPS_OK. -/
def MoveAbsFocuser (targetTicks : Nat) : IPState := IPState.Ok

/-- DummyFocuser::MoveRelFocuser: stub, logs and returns IPS_OK. -/
def MoveRelFocuser (dir : Int) (ticks : Nat) : IPState := IPState.Ok

end DummyFocuser

namespace DummyDustcap

/-- getDefaultName of DummyDustcap. -/
def defaultName : String := "Dummy Dustcap"

/-- DummyDustcap::updateProperties: when connected it defines
ParkCapSP.name; when disconnected it deletes the same name.  The
ParkCapSP property itself belongs to the framework's DustCapInterface,
so its name is a parameter. -/
def updateProperties (parkCapName : String) (connected : Bool) : List PropAction :=
  if connected then
    [PropAction.defineProp parkCapName]
  else
    [PropAction.deleteProp parkCapName]

/-- DummyDustcap::Handshake: in simulation it logs and returns true
without touching the port; otherwise it stores the serial port file
descriptor and returns true. -/
def Handshake (sim : Bool) (portFD serialFD : Int) :
    Int × List String × List Event × Bool :=
  if sim then
    (portFD, [], [Event.logInfo "Connected successfuly to simulated device."], true)
  else
    (serialFD, [], [], true)

/-- DummyDustcap::TimerHit: events performed and whether SetTimer was called. -/
def TimerHit (connected : Bool) : List Event × Bool :=
  if !connected then
    ([], false)
  else
    ([Event.logInfo "timer hit"], true)

/-- DummyDustcap::ParkCap: stub, returns IPS_OK. -/
def ParkCap : IPState := IPState.Ok

/-- DummyDustcap::UnParkCap: stub, returns IPS_OK. -/
def UnParkCap : IPState := IPState.Ok

end DummyDustcap

namespace DummyFilterWheel

/-- The filter-wheel state: the slot bounds of the FilterSlot property and
the inherited TargetFilter / CurrentFilter variables. -/
structure State where
  slotMin : Rat
  slotMax : Rat
  targetFilter : Int
  currentFilter : Int
deriving DecidableEq, Repr

/-- getDefaultName of DummyFilterWheel. -/
def defaultName : String := "Dummy FilterWheel"

/-- DummyFilterWheel::updateProperties: both branches are empty. -/
def updateProperties (connected : Bool) : List PropAction :=
  if connected then [] else []

/-- DummyFilterWheel::Handshake: logs in simulation (without returning
early), then in every case sets the filter-slot bounds to 1..8, calls
IUUpdateMinMax, and returns true.  No serial I/O is performed. -/
def Handshake (sim : Bool) (st : State) :
    State × List String × List Event × Bool :=
  let logEvents : List Event :=
    if sim then [Event.logInfo "Connected successfuly to simulated device."] else []
  ( { st with slotMin := 1, slotMax := 8 }
  , []
  , logEvents ++ [Event.updateMinMax "FILTER_SLOT"]
  , true )

/-- DummyFilterWheel::TimerHit: events performed and whether SetTimer was
called. -/
def TimerHit (connected : Bool) : List Event × Bool :=
  if !connected then
    ([], false)
  else
    ([Event.logInfo "timer hit"], true)

/-- DummyFilterWheel::QueryFilter: returns CurrentFilter. -/
def QueryFilter (st : State) : Int := st.currentFilter

/-- DummyFilterWheel::SelectFilter: sets TargetFilter to the index, copies
it into CurrentFilter, calls SelectFilterDone with the index, and returns
true.  The second component lists the SelectFilterDone call arguments. -/
def SelectFilter (st : State) (index : Int) : State × List Int × Bool :=
  let st1 := { st with targetFilter := index }
  let st2 := { st1 with currentFilter := st1.targetFilter }
  (st2, [index], true)

end DummyFilterWheel

namespace DummyLightbox

/-- getDefaultName of DummyLightbox. -/
def defaultName : String := "Dummy Lightbox"

/-- DummyLightbox::updateProperties custom branches: both are empty (the
light-box interface properties are handled by updateLightBoxProperties,
which belongs to the framework). -/
def updateProperties (connected : Bool) : List PropAction :=
  if connected then [] else []

/-- DummyLightbox::Handshake: in simulation it logs and returns true
without touching the port; otherwise it stores the serial port file
descriptor and returns true. -/
def Handshake (sim : Bool) (portFD serialFD : Int) :
    Int × List String × List Event × Bool :=
  if sim then
    (portFD, [], [Event.logInfo "Connected successfuly to simulated device."], true)
  else
    (serialFD, [], [], true)

/-- DummyLightbox::TimerHit: events performed and whether SetTimer was
called. -/
def TimerHit (connected : Bool) : List Event × Bool :=
  if !connected then
    ([], false)
  else
    ([Event.logInfo "timer hit"], true)

end DummyLightbox

namespace DummyGPS

/-- getDefaultName of DummyGPS. -/
def defaultName : String := "Dummy GPS"

/-- DummyGPS::updateProperties: both branches are empty. -/
def updateProperties (connected : Bool) : List PropAction :=
  if connected then [] else []

/-- DummyGPS::Handshake: in simulation it logs and returns true without
touching the port; otherwise it stores the serial port file descriptor
and returns true. -/
def Handshake (sim : Bool) (portFD serialFD : Int) :
    Int × List String × List Event × Bool :=
  if sim then
    (portFD, [], [Event.logInfo "Connected successfuly to simulated device."], true)
  else
    (serialFD, [], [], true)

end DummyGPS

/-- Counts how many client notifications (IDSetSwitch calls) a list of
events contains for the switch property named `p`. -/
def countIdSetSwitch (evts : List Event) (p : String) : Nat :=
  (evts.filter fun e =>
    match e with
    | Event.idSetSwitch n => n = p
    | _ => false).length

lemma IUUpdateSwitch_name (p : SwitchVectorProperty) (u : List (String × ISState)) :
    (IUUpdateSwitch p u).name = p.name := rfl

lemma IUResetSwitch_name (p : SwitchVectorProperty) :
    (IUResetSwitch p).name = p.name := rfl

lemma countIdSetSwitch_append (a b : List Event) (p : String) :
    countIdSetSwitch (a ++ b) p = countIdSetSwitch a p + countIdSetSwitch b p := by
  simp [countIdSetSwitch]

/-- C1 counterexample: the focuser's absolute-move stub does not return
the alert completion state at target 100 — it returns IPS_OK. -/
theorem focuserStubNotAlert : DummyFocuser.MoveAbsFocuser 100 ≠ IPState.Alert := by
  decide

/-- C1 (amended): the dome stubs Move, MoveAbs, MoveRel, Park, UnPark and
ControlShutter return the alert completion state for any arguments, while
the focuser stubs MoveFocuser, MoveAbsFocuser, MoveRelFocuser and the
dust-cap stubs ParkCap, UnParkCap return the ok completion state. -/
theorem capabilityStubCompletionStates :
    (∀ d o : Int, DummyDome.Move d o = IPState.Alert)
    ∧ (∀ az : Rat, DummyDome.MoveAbs az = IPState.Alert)
    ∧ (∀ az : Rat, DummyDome.MoveRel az = IPState.Alert)
    ∧ DummyDome.Park = IPState.Alert
    ∧ DummyDome.UnPark = IPState.Alert
    ∧ (∀ o : Int, DummyDome.ControlShutter o = IPState.Alert)
    ∧ (∀ d s : Int, ∀ du : Nat, DummyFocuser.MoveFocuser d s du = IPState.Ok)
    ∧ (∀ t : Nat, DummyFocuser.MoveAbsFocuser t = IPState.Ok)
    ∧ (∀ d : Int, ∀ t : Nat, DummyFocuser.MoveRelFocuser d t = IPState.Ok)
    ∧ DummyDustcap.ParkCap = IPState.Ok
    ∧ DummyDustcap.UnParkCap = IPState.Ok := by
  refine ⟨fun _ _ => rfl, fun _ => rfl, fun _ => rfl, rfl, rfl, fun _ => rfl,
    fun _ _ _ => rfl, fun _ => rfl, fun _ _ => rfl, rfl, rfl⟩

/-- C2: with simulation enabled, every driver's Handshake performs no
serial I/O, leaves the driver's port descriptor untouched where the driver
owns one, and returns true, for every port-descriptor value and state. -/
theorem handshakeSimulationShortCircuit :
    (∀ p s : Int, (MyCustomDriver.Handshake true p s).2.1 = []
      ∧ (MyCustomDriver.Handshake true p s).1 = p
      ∧ (MyCustomDriver.Handshake true p s).2.2.2 = true)
    ∧ (DummyDome.Handshake true).1 = [] ∧ (DummyDome.Handshake true).2.2 = true
    ∧ (DummyFocuser.Handshake true).1 = [] ∧ (DummyFocuser.Handshake true).2.2 = true
    ∧ (∀ st : DummyFilterWheel.State, (DummyFilterWheel.Handshake true st).2.1 = []
      ∧ (DummyFilterWheel.Handshake true st).2.2.2 = true)
    ∧ (∀ p s : Int, (DummyDustcap.Handshake true p s).2.1 = []
      ∧ (DummyDustcap.Handshake true p s).1 = p
      ∧ (DummyDustcap.Handshake true p s).2.2.2 = true)
    ∧ (∀ p s : Int, (DummyLightbox.Handshake true p s).2.1 = []
      ∧ (DummyLightbox.Handshake true p s).1 = p
      ∧ (DummyLightbox.Handshake true p s).2.2.2 = true)
    ∧ (∀ p s : Int, (DummyGPS.Handshake true p s).2.1 = []
      ∧ (DummyGPS.Handshake true p s).1 = p
      ∧ (DummyGPS.Handshake true p s).2.2.2 = true) := by
  refine ⟨fun p s => ⟨rfl, rfl, rfl⟩, rfl, rfl, rfl, rfl,
    fun st => ⟨rfl, rfl⟩, fun p s => ⟨rfl, rfl, rfl⟩,
    fun p s => ⟨rfl, rfl, rfl⟩, fun p s => ⟨rfl, rfl, rfl⟩⟩

/-- C3: for every driver and every local state, the property names defined
in the connected branch of updateProperties equal the property names
deleted in the disconnected branch. -/
theorem updatePropertiesSymmetry :
    (∀ st : MyCustomDriver.State,
      definedNames (MyCustomDriver.updateProperties st true)
        = deletedNames (MyCustomDriver.updateProperties st false))
    ∧ (∀ nm : String,
      definedNames (DummyDustcap.updateProperties nm true)
        = deletedNames (DummyDustcap.updateProperties nm false))
    ∧ definedNames (DummyDome.updateProperties true)
        = deletedNames (DummyDome.updateProperties false)
    ∧ definedNames (DummyFocuser.updateProperties true)
        = deletedNames (DummyFocuser.updateProperties false)
    ∧ definedNames (DummyFilterWheel.updateProperties true)
        = deletedNames (DummyFilterWheel.updateProperties false)
    ∧ definedNames (DummyLightbox.updateProperties true)
        = deletedNames (DummyLightbox.updateProperties false)
    ∧ definedNames (DummyGPS.updateProperties true)
        = deletedNames (DummyGPS.updateProperties false) := by
  refine ⟨fun st => ?_, fun nm => ?_, rfl, rfl, rfl, rfl, rfl⟩ <;>
    simp [MyCustomDriver.updateProperties, DummyDustcap.updateProperties,
      definedNames, deletedNames]

/-- C6: for every driver with a polling callback, TimerHit re-arms the
timer (calls SetTimer) exactly when the device is connected, and when
disconnected it returns without performing any action. -/
theorem timerHitRearmOnlyWhenConnected :
    (∀ c, (MyCustomDriver.TimerHit c).2 = c)
    ∧ MyCustomDriver.TimerHit false = ([], false)
    ∧ (∀ c, (DummyDome.TimerHit c).2 = c)
    ∧ DummyDome.TimerHit false = ([], false)
    ∧ (∀ c, (DummyFocuser.TimerHit c).2 = c)
    ∧ DummyFocuser.TimerHit false = ([], false)
    ∧ (∀ c, (DummyFilterWheel.TimerHit c).2 = c)
    ∧ DummyFilterWheel.TimerHit false = ([], false)
    ∧ (∀ c, (DummyDustcap.TimerHit c).2 = c)
    ∧ DummyDustcap.TimerHit false = ([], false)
    ∧ (∀ c, (DummyLightbox.TimerHit c).2 = c)
    ∧ DummyLightbox.TimerHit false = ([], false) := by
  refine ⟨fun c => ?_, rfl, fun c => ?_, rfl, fun c => ?_, rfl,
    fun c => ?_, rfl, fun c => ?_, rfl, fun c => ?_, rfl⟩ <;>
    cases c <;> rfl

/-- C7: outside simulation mode, sendCommand returns true exactly when
both the serial write and the serial read succeed (so it returns false
exactly when one of them fails), and it performs at most one write
attempt and at most one read attempt. -/
theorem sendCommandSingleAttemptSemantics (w r : Int) :
    ((MyCustomDriver.sendCommand false w r).2.2.2 = true ↔ (w = 0 ∧ r = 0))
    ∧ ((MyCustomDriver.sendCommand false w r).2.2.2 = false ↔ (w ≠ 0 ∨ r ≠ 0))
    ∧ (MyCustomDriver.sendCommand false w r).2.1 ≤ 1
    ∧ (MyCustomDriver.sendCommand false w r).2.2.1 ≤ 1 := by
  by_cases hw : w = 0 <;> by_cases hr : r = 0 <;>
    simp [MyCustomDriver.sendCommand, hw, hr]

/-- C9: every driver's Handshake returns true for every simulation flag,
every port descriptor and every state: handshake verification never
fails, so the Connecting transition is never aborted by these drivers. -/
theorem handshakeAlwaysSucceeds :
    (∀ sim : Bool, ∀ p s : Int, (MyCustomDriver.Handshake sim p s).2.2.2 = true)
    ∧ (∀ sim : Bool, (DummyDome.Handshake sim).2.2 = true)
    ∧ (∀ sim : Bool, (DummyFocuser.Handshake sim).2.2 = true)
    ∧ (∀ sim : Bool, ∀ st : DummyFilterWheel.State,
        (DummyFilterWheel.Handshake sim st).2.2.2 = true)
    ∧ (∀ sim : Bool, ∀ p s : Int, (DummyDustcap.Handshake sim p s).2.2.2 = true)
    ∧ (∀ sim : Bool, ∀ p s : Int, (DummyLightbox.Handshake sim p s).2.2.2 = true)
    ∧ (∀ sim : Bool, ∀ p s : Int, (DummyGPS.Handshake sim p s).2.2.2 = true) := by
  refine ⟨fun sim p s => ?_, fun sim => ?_, fun sim => ?_, fun sim st => ?_,
    fun sim p s => ?_, fun sim p s => ?_, fun sim p s => ?_⟩ <;>
    cases sim <;> rfl

/-- C10: for every state and filter index, SelectFilter sets both
TargetFilter and CurrentFilter to the index, calls SelectFilterDone
exactly once with that index, returns true, and a subsequent QueryFilter
returns the index. -/
theorem selectFilterRoundTrip (st : DummyFilterWheel.State) (i : Int) :
    (DummyFilterWheel.SelectFilter st i).1.targetFilter = i
    ∧ (DummyFilterWheel.SelectFilter st i).1.currentFilter = i
    ∧ (DummyFilterWheel.SelectFilter st i).2.1 = [i]
    ∧ (DummyFilterWheel.SelectFilter st i).2.2 = true
    ∧ DummyFilterWheel.QueryFilter (DummyFilterWheel.SelectFilter st i).1 = i := by
  refine ⟨rfl, rfl, rfl, rfl, rfl⟩

/-- C4: a switch/text dispatch whose dev argument is null or names a
different device leaves the driver's local state untouched and returns
exactly the inherited handler's result (the local matching contributes
false). -/
theorem mismatchedDeviceUnclaimed (deviceName : String) (inherited : Bool)
    (st : MyCustomDriver.State) (dev : Option String) (nm : String)
    (su : List (String × ISState)) (tu : List (String × String))
    (h : devMatches deviceName dev = false) :
    MyCustomDriver.ISNewSwitch deviceName inherited st dev nm su = (st, [], inherited)
    ∧ MyCustomDriver.ISNewText deviceName inherited st dev nm tu = (st, [], inherited)
    ∧ DummyDome.ISNewSwitch deviceName inherited dev nm = inherited
    ∧ DummyDome.ISNewNumber deviceName inherited dev nm = inherited
    ∧ DummyDome.ISNewText deviceName inherited dev nm = inherited := by
  cases inherited <;>
    simp [MyCustomDriver.ISNewSwitch, MyCustomDriver.ISNewText,
      DummyDome.ISNewSwitch, DummyDome.ISNewNumber, DummyDome.ISNewText, h]

/-- C4 witness: a concrete dispatch addressed to another device name. -/
theorem mismatchedDeviceUnclaimedWitness :
    devMatches MyCustomDriver.defaultName (some "Some Other Device") = false
    ∧ (MyCustomDriver.ISNewSwitch MyCustomDriver.defaultName false
        MyCustomDriver.initialState (some "Some Other Device") "SAY_HELLO" []
        = (MyCustomDriver.initialState, [], false)
      ∧ MyCustomDriver.ISNewText MyCustomDriver.defaultName false
        MyCustomDriver.initialState (some "Some Other Device") "SAY_HELLO" []
        = (MyCustomDriver.initialState, [], false)
      ∧ DummyDome.ISNewSwitch MyCustomDriver.defaultName false
        (some "Some Other Device") "SAY_HELLO" = false
      ∧ DummyDome.ISNewNumber MyCustomDriver.defaultName false
        (some "Some Other Device") "SAY_HELLO" = false
      ∧ DummyDome.ISNewText MyCustomDriver.defaultName false
        (some "Some Other Device") "SAY_HELLO" = false) :=
  ⟨by decide,
   mismatchedDeviceUnclaimed MyCustomDriver.defaultName false
     MyCustomDriver.initialState (some "Some Other Device") "SAY_HELLO" [] []
     (by decide)⟩

/-- C5: a switch dispatch addressed to this device naming the SAY_HELLO
property, not claimed by the inherited handler, is handled (returns
true), leaves the property's state field idle, and issues exactly one
IDSetSwitch notification for that property. -/
theorem sayHelloUpdateIdleNotifiedOnce (deviceName : String)
    (st : MyCustomDriver.State) (dev : Option String) (nm : String)
    (updates : List (String × ISState))
    (hdev : devMatches deviceName dev = true)
    (hname : nm = st.sayHelloSP.name) :
    (MyCustomDriver.ISNewSwitch deviceName false st dev nm updates).2.2 = true
    ∧ (MyCustomDriver.ISNewSwitch deviceName false st dev nm updates).1.sayHelloSP.s
        = IPState.Idle
    ∧ countIdSetSwitch
        (MyCustomDriver.ISNewSwitch deviceName false st dev nm updates).2.1
        st.sayHelloSP.name = 1 := by
  subst hname
  simp only [MyCustomDriver.ISNewSwitch, hdev, Bool.false_eq_true, if_false,
    if_true, ite_true]
  refine ⟨trivial, trivial, ?_⟩
  rw [countIdSetSwitch_append]
  have h0 : countIdSetSwitch
      (if IUFindOnSwitchIndex (IUUpdateSwitch st.sayHelloSP updates) = 0 then
        [Event.logInfo "Hello, world!"]
      else if IUFindOnSwitchIndex (IUUpdateSwitch st.sayHelloSP updates) = 1 then
        [Event.logInfo (match st.whatToSayTP.tp.head? with
                        | some t => t.text
                        | none => "")]
      else []) st.sayHelloSP.name = 0 := by
    split <;> try split
    all_goals simp [countIdSetSwitch]
  rw [h0]
  simp [countIdSetSwitch, IUResetSwitch_name, IUUpdateSwitch_name]

/-- C5 witness: clicking the default hello switch on the initial state. -/
theorem sayHelloUpdateIdleNotifiedOnceWitness :
    devMatches MyCustomDriver.defaultName (some MyCustomDriver.defaultName) = true
    ∧ ((MyCustomDriver.ISNewSwitch MyCustomDriver.defaultName false
          MyCustomDriver.initialState (some MyCustomDriver.defaultName) "SAY_HELLO"
          [("SAY_HELLO_DEFAULT", ISState.On)]).2.2 = true
      ∧ (MyCustomDriver.ISNewSwitch MyCustomDriver.defaultName false
          MyCustomDriver.initialState (some MyCustomDriver.defaultName) "SAY_HELLO"
          [("SAY_HELLO_DEFAULT", ISState.On)]).1.sayHelloSP.s = IPState.Idle
      ∧ countIdSetSwitch
          (MyCustomDriver.ISNewSwitch MyCustomDriver.defaultName false
            MyCustomDriver.initialState (some MyCustomDriver.defaultName) "SAY_HELLO"
            [("SAY_HELLO_DEFAULT", ISState.On)]).2.1
          MyCustomDriver.initialState.sayHelloSP.name = 1) :=
  ⟨by decide,
   sayHelloUpdateIdleNotifiedOnce MyCustomDriver.defaultName
     MyCustomDriver.initialState (some MyCustomDriver.defaultName) "SAY_HELLO"
     [("SAY_HELLO_DEFAULT", ISState.On)] (by decide) (by decide)⟩

/-- C8: a switch dispatch addressed to this device naming no registered
local property, and not claimed by the inherited handler, returns false
and leaves the entire local state (all three properties, their state
fields and member values) unchanged, emitting no event. -/
theorem unknownSwitchNameUnhandled (deviceName : String)
    (st : MyCustomDriver.State) (dev : Option String) (nm : String)
    (updates : List (String × ISState))
    (hdev : devMatches deviceName dev = true)
    (hname : nm ≠ st.sayHelloSP.name) :
    MyCustomDriver.ISNewSwitch deviceName false st dev nm updates
      = (st, [], false) := by
  simp [MyCustomDriver.ISNewSwitch, hdev, hname]

/-- C8 witness: a request naming an unregistered property on the initial
state. -/
theorem unknownSwitchNameUnhandledWitness :
    devMatches MyCustomDriver.defaultName (some MyCustomDriver.defaultName) = true
    ∧ "NOT_A_PROPERTY" ≠ MyCustomDriver.initialState.sayHelloSP.name
    ∧ MyCustomDriver.ISNewSwitch MyCustomDriver.defaultName false
        MyCustomDriver.initialState (some MyCustomDriver.defaultName)
        "NOT_A_PROPERTY" [("SAY_HELLO_DEFAULT", ISState.On)]
        = (MyCustomDriver.initialState, [], false) :=
  ⟨by decide, by decide,
   unknownSwitchNameUnhandled MyCustomDriver.defaultName
     MyCustomDriver.initialState (some MyCustomDriver.defaultName)
     "NOT_A_PROPERTY" [("SAY_HELLO_DEFAULT", ISState.On)] (by decide) (by decide)⟩
